import Mathlib

/-!
Verification development for the smart-research-agent repository.

The Python sources `src/tools.py` (class `ToolRegistry`) and `src/agent.py`
(class `ResearchAgent`) are shallowly embedded below.  Python strings are
modelled by Lean `String`; `len`, slicing and joining are modelled on the
underlying character list (`String.data`), which matches Python code-point
semantics.  Python dictionaries produced by the tools are modelled by the
structured value type `JVal` (the `json.dumps` serialisation step of
`ToolRegistry.execute` is a bijection onto these structured values and is
abstracted away).  The two network collaborators (the DuckDuckGo search
provider and the page fetcher) and the language model are modelled as
oracles indexed by attempt / iteration number, returning either a result
or the message of the exception they raise.
-/

namespace SmartResearch

/-- Structured (JSON-like) values: the shape of every dictionary the Python
tools build and of every payload `ToolRegistry.execute` serialises. -/
inductive JVal where
  | s (v : String)
  | n (v : Nat)
  | b (v : Bool)
  | arr (vs : List JVal)
  | obj (fs : List (String × JVal))

/-- Model of `dict.get` on the field list of an object (keys are unique in the
dictionaries the code builds, so first-match lookup is exact). -/
def JVal.lookup : List (String × JVal) → String → Option JVal
  | [], _ => none
  | (k, v) :: fs, key => if k = key then some v else JVal.lookup fs key

/-- Python truthiness of an optional structured value (`None` is falsy,
empty strings / collections and `0` are falsy). -/
def jTruthy : Option JVal → Bool
  | none => false
  | some (.b v) => v
  | some (.s v) => !v.data.isEmpty
  | some (.n v) => !(v == 0)
  | some (.arr vs) => !vs.isEmpty
  | some (.obj fs) => !fs.isEmpty

/-- Whether a structured value is an object with field `k`. -/
def JVal.hasKey : JVal → String → Bool
  | .obj fs, k => (JVal.lookup fs k).isSome
  | _, _ => false

/-- Whether a structured value is an object (every `execute` result is). -/
def JVal.isObj : JVal → Bool
  | .obj _ => true
  | _ => false

/-- Python `len` on a string: number of code points. -/
def pyLen (s : String) : Nat := s.data.length

/-- One search hit as returned by the search provider. -/
structure Hit where
  title : String
  url : String
  snippet : String

/-- The note ledger (`ToolRegistry._notes`). -/
abbrev Notes := List String

/-- An external call: either a result or the message of a raised exception. -/
abbrev Exc (α : Type) := Except String α

/-! ### tenacity retry

Both network tools are wrapped in `@retry(stop=stop_after_attempt(k), ...)`.
tenacity invokes the wrapped callable; if it returns without raising, the
result is returned immediately; if it raises, the call is retried until
`k` attempts have been made (the last exception is then propagated).
`retryGo call fuel attempt` runs attempts `attempt, attempt+1, ...` with
`fuel` attempts remaining.  Backoff delays are real time and have no
functional effect, so they are not modelled. -/
def retryGo (call : Nat → Exc JVal) : Nat → Nat → Exc JVal
  | 0, _ => Except.error "RetryError"
  | 1, attempt => call attempt
  | fuel + 2, attempt =>
    match call attempt with
    | Except.ok v => Except.ok v
    | Except.error _ => retryGo call (fuel + 1) (attempt + 1)

/-- Applies `@retry(stop=stop_after_attempt(maxAttempts))` around `call`. -/
def runWithRetry (maxAttempts : Nat) (call : Nat → Exc JVal) : Exc JVal :=
  retryGo call maxAttempts 1

/-- Body of `ToolRegistry.web_search` (between `try` and `except`): query the
provider, format the hits.  The surrounding `try/except Exception` converts
any raised exception into the structured failure value, so the body as a
whole never raises; `provider` is the outcome of the `DDGS().text(...)` call. -/
def web_search_body (provider : Exc (List Hit)) (query : String) : JVal :=
  match provider with
  | Except.ok rs =>
    JVal.obj [("success", JVal.b true), ("query", JVal.s query),
      ("results", JVal.arr (rs.map (fun r =>
        JVal.obj [("title", JVal.s r.title), ("url", JVal.s r.url),
                  ("snippet", JVal.s r.snippet)]))),
      ("count", JVal.n rs.length)]
  | Except.error e =>
    JVal.obj [("success", JVal.b false), ("error", JVal.s e),
              ("results", JVal.arr [])]

/-- Model of `ToolRegistry.web_search`: the retry decorator (3 attempts) around the
never-raising body.  `provider k` is what the search provider does on
attempt `k`. -/
def web_search (provider : Nat → Exc (List Hit)) (query : String) : Exc JVal :=
  runWithRetry 3 (fun k => Except.ok (web_search_body (provider k) query))

/-- Python `str.strip()` with default (whitespace) characters. -/
def pyStrip (s : String) : String :=
  String.mk (((s.data.dropWhile Char.isWhitespace).reverse.dropWhile
    Char.isWhitespace).reverse)

/-- Split a character list at newline characters (keeping empty pieces). -/
def splitNL : List Char → List Char → List (List Char)
  | [], acc => [acc.reverse]
  | c :: cs, acc =>
    if c = '\n' then acc.reverse :: splitNL cs [] else splitNL cs (c :: acc)

/-- Python `str.splitlines()` restricted to the newline separator, the only
line break `BeautifulSoup.get_text(separator="\n")` output contains: the
empty string gives `[]`, and a trailing newline produces no trailing empty
line. -/
def pySplitlines (s : String) : List String :=
  if s.data.isEmpty then []
  else
    let parts := splitNL s.data []
    (if s.data.getLast? = some '\n' then parts.dropLast else parts).map
      String.mk

/-- Python `"sep".join(xs)`. -/
def pyJoin (sep : String) : List String → String
  | [] => ""
  | [x] => x
  | x :: y :: xs => x ++ sep ++ pyJoin sep (y :: xs)

/-- Model of `lines = [line.strip() for line in text.splitlines() if line.strip()]`. -/
def fetchLines (text : String) : List String :=
  ((pySplitlines text).map pyStrip).filter (fun l => !l.data.isEmpty)

/-- The truncation marker appended by `fetch_webpage`. -/
def truncMarker : String := "... [truncated]"

/-- Model of `content = "\n".join(lines[:100])` before the hard cap. -/
def joined100 (text : String) : String := pyJoin "\n" ((fetchLines text).take 100)

/-- The content pipeline of `ToolRegistry.fetch_webpage`, applied to the
text extracted from the page: first 100 non-empty stripped lines joined by
newlines, then `content[:4000] + "... [truncated]"` when that exceeds 4000
characters. -/
def fetchContent (text : String) : String :=
  let content := joined100 text
  if 4000 < pyLen content then String.mk (content.data.take 4000) ++ truncMarker
  else content

/-- Body of `ToolRegistry.fetch_webpage` (between `try` and `except`):
`page` is the outcome of the HTTP request plus markup stripping, yielding
the extracted text.  As with `web_search`, the internal `try/except`
means the body never raises. -/
def fetch_webpage_body (page : Exc String) (url : String) : JVal :=
  match page with
  | Except.ok text =>
    let content := fetchContent text
    JVal.obj [("success", JVal.b true), ("url", JVal.s url),
              ("content", JVal.s content), ("length", JVal.n (pyLen content))]
  | Except.error e =>
    JVal.obj [("success", JVal.b false), ("url", JVal.s url),
              ("error", JVal.s e)]

/-- Model of `ToolRegistry.fetch_webpage`: retry decorator (2 attempts) around the
never-raising body. -/
def fetch_webpage (page : Nat → Exc String) (url : String) : Exc JVal :=
  runWithRetry 2 (fun k => Except.ok (fetch_webpage_body (page k) url))

/-- Model of `ToolRegistry.take_notes(note, source="Unknown")`: appends
`"[Source: {source}] {note}"` to the ledger and reports the running count. -/
def take_notes (notes : Notes) (note : String) (source : String) :
    Notes × JVal :=
  let entry := "[Source: " ++ source ++ "] " ++ note
  let notes2 := notes ++ [entry]
  (notes2, JVal.obj [("success", JVal.b true),
    ("message", JVal.s "Note saved successfully"),
    ("total_notes", JVal.n notes2.length)])

/-- The banner `'='*60`. -/
def eqBanner : String := String.mk (List.replicate 60 '=')

/-- The banner `'-'*40`. -/
def dashBanner : String := String.mk (List.replicate 40 '-')

/-- One numbered note line `f"{i}. {note}\n"` of the report loop. -/
def noteLine (i : Nat) (note : String) : String :=
  toString i ++ ". " ++ note ++ "\n"

/-- Model of the loop `for i, note in enumerate(self._notes, 1)` appending numbered note lines. -/
def renderNotes : Notes → Nat → String
  | [], _ => ""
  | n :: ns, i => noteLine i n ++ renderNotes ns (i + 1)

/-- The report string built by `ToolRegistry.compile_report`. -/
def reportText (notes : Notes) (title summary detailed_findings conclusion :
    String) : String :=
  "\n" ++ eqBanner ++ "\nRESEARCH REPORT: " ++ title ++ "\n" ++ eqBanner ++
  "\n\nEXECUTIVE SUMMARY\n" ++ dashBanner ++ "\n" ++ summary ++
  "\n\nDETAILED FINDINGS\n" ++ dashBanner ++ "\n" ++ detailed_findings ++
  "\n\nCONCLUSION\n" ++ dashBanner ++ "\n" ++ conclusion ++
  "\n\nRESEARCH NOTES\n" ++ dashBanner ++ "\n" ++
  renderNotes notes 1 ++
  "\n" ++ eqBanner ++ "\n"

/-- Model of `ToolRegistry.compile_report`: reads the ledger, never mutates it. -/
def compile_report (notes : Notes)
    (title summary detailed_findings conclusion : String) : JVal :=
  JVal.obj [("success", JVal.b true),
    ("report", JVal.s (reportText notes title summary detailed_findings
      conclusion)),
    ("notes_included", JVal.n notes.length)]

/-- Model of `ToolRegistry.get_notes`: a copy of the ledger. -/
def get_notes (notes : Notes) : Notes := notes

/-- Model of `ToolRegistry.clear_notes`. -/
def clear_notes (_notes : Notes) : Notes := []

/-- The keys of `ToolRegistry._tools`, in insertion order. -/
def toolNames : List String :=
  ["web_search", "fetch_webpage", "take_notes", "compile_report"]

/-- A structured argument dictionary (all parameters of the four tools are
strings), as produced by `json.loads` on the tool-call argument text. -/
abbrev Args := List (String × String)

/-- Lookup of an argument by keyword. -/
def argLookup : Args → String → Option String
  | [], _ => none
  | (k, v) :: rest, key => if k = key then some v else argLookup rest key

/-- Keyword parameter names of each tool method (after `self`). -/
def paramNames : String → List String
  | "web_search" => ["query"]
  | "fetch_webpage" => ["url"]
  | "take_notes" => ["note", "source"]
  | "compile_report" => ["title", "summary", "detailed_findings", "conclusion"]
  | _ => []

/-- Parameters without a default value: omitting one makes the
`self._tools[tool_name](**arguments)` call raise `TypeError`. -/
def requiredNames : String → List String
  | "web_search" => ["query"]
  | "fetch_webpage" => ["url"]
  | "take_notes" => ["note"]
  | "compile_report" => ["title", "summary", "detailed_findings", "conclusion"]
  | _ => []

/-- The `self._tools[tool_name](**arguments)` call: keyword unpacking raises
`TypeError` on an unexpected or missing keyword, and otherwise runs the
tool body; the result is the new ledger and the tool dictionary.
`wO` / `fO` are the per-attempt network oracles. -/
def callTool (notes : Notes) (wO : Nat → Exc (List Hit))
    (fO : Nat → Exc String) (name : String) (args : Args) :
    Exc (Notes × JVal) :=
  if args.any (fun kv => !(paramNames name).contains kv.1) then
    Except.error (name ++ "() got an unexpected keyword argument")
  else if (requiredNames name).any (fun p => (argLookup args p).isNone) then
    Except.error (name ++ "() missing a required positional argument")
  else
    match name with
    | "web_search" =>
      (web_search wO ((argLookup args "query").getD "")).map
        (fun v => (notes, v))
    | "fetch_webpage" =>
      (fetch_webpage fO ((argLookup args "url").getD "")).map
        (fun v => (notes, v))
    | "take_notes" =>
      Except.ok (take_notes notes ((argLookup args "note").getD "")
        ((argLookup args "source").getD "Unknown"))
    | "compile_report" =>
      Except.ok (notes, compile_report notes
        ((argLookup args "title").getD "")
        ((argLookup args "summary").getD "")
        ((argLookup args "detailed_findings").getD "")
        ((argLookup args "conclusion").getD ""))
    | _ => Except.error ("unreachable: " ++ name)

/-- Model of `ToolRegistry.execute(tool_name, arguments)`: unknown names and every
exception raised inside the dispatched call are converted into an
`{"error": ...}` object; the (serialised) structured result is returned
together with the ledger after the call. -/
def execute (notes : Notes) (wO : Nat → Exc (List Hit))
    (fO : Nat → Exc String) (tool_name : String) (args : Args) :
    Notes × JVal :=
  if !toolNames.contains tool_name then
    (notes, JVal.obj [("error", JVal.s ("Unknown tool: " ++ tool_name))])
  else
    match callTool notes wO fO tool_name args with
    | Except.ok r => r
    | Except.error e => (notes, JVal.obj [("error", JVal.s e)])

/-! ### `src/agent.py`: the research agent -/

/-- One tool-call request from a model response.  `argText` models
`tool_call.function.arguments` together with its `json.loads` outcome:
`none` is argument text that fails to parse (degraded to `{}` by
`_process_tool_calls`), `some a` is text parsing to the dictionary `a`. -/
structure ToolCall where
  id : String
  name : String
  argText : Option Args

/-- A model response message: optional free text plus the requested tool
calls (`None` and the empty list are both modelled by `[]`, as the code
collapses them with `response.tool_calls or []`). -/
structure ModelResponse where
  content : Option String
  tool_calls : List ToolCall

/-- A transcript message. -/
inductive Msg where
  | system (content : String)
  | user (content : String)
  | assistant (content : Option String) (tool_calls : List ToolCall)
  | tool (tool_call_id : String) (content : JVal)

/-- Mutable per-session agent state: `self.messages`, the ledger of
`self.tools`, and `self._report`. -/
structure AgentState where
  messages : List Msg
  notes : Notes
  report : Option String

/-- Python truthiness of `self._report` (`None` and `""` are falsy). -/
def pyTruthyStr : Option String → Bool
  | none => false
  | some s => !s.data.isEmpty

/-- Python `x or d` for an optional report string. -/
def pyOrStr (o : Option String) (dflt : String) : String :=
  if pyTruthyStr o then o.getD "" else dflt

/-- The directive `ResearchAgent.SYSTEM_PROMPT`. -/
def systemPrompt : String :=
  "You are an expert research assistant agent. Your goal is to thoroughly " ++
  "research the given topic and compile a comprehensive report.\n\n" ++
  "You have access to the following tools:\n" ++
  "1. web_search: Search the web for information (returns search results " ++
  "with URLs)\n" ++
  "2. fetch_webpage: Get detailed content from a specific URL (essential " ++
  "for actual information)\n" ++
  "3. take_notes: Save important findings for the final report (CRITICAL " ++
  "for building content)\n" ++
  "4. compile_report: Create the final research report (call when you have " ++
  "enough information)\n\n" ++
  "CRITICAL WORKFLOW:\n" ++
  "1. Use web_search ONCE to find relevant sources\n" ++
  "2. IMMEDIATELY use fetch_webpage to read content from the best URLs " ++
  "found\n" ++
  "3. Use take_notes to record key information with sources\n" ++
  "4. If more information needed, search for specific aspects, then read " ++
  "those pages\n" ++
  "5. When you have gathered sufficient information, compile the report\n\n" ++
  "IMPORTANT RULES:\n" ++
  "- Do NOT keep searching without reading content\n" ++
  "- After each search, you MUST fetch and read from the URLs found\n" ++
  "- Take notes on every important finding you discover\n" ++
  "- Compile report when you have 3-5 solid sources of information\n" ++
  "- Each iteration should progress toward completing the research\n\n" ++
  "The research is complete when you have enough information to write a " ++
  "comprehensive report on the topic."

/-- The user message wrapping the topic. -/
def userTemplate (topic : String) : String :=
  "Please research the following topic and compile a comprehensive " ++
  "report:\n\n" ++ topic

/-- Model of `ResearchAgent._process_tool_calls` plus the `self.messages.extend`
done by `research`: execute every requested call in order, build one tool
message per call with the same correlation id, and capture
`result_data.get("report")` as the session report whenever the call was
`compile_report` and `result_data.get("success")` is truthy.  Returns the
ledger, the report field and the tool-result messages. -/
def processToolCalls (wO : Nat → Exc (List Hit)) (fO : Nat → Exc String) :
    List ToolCall → Notes → Option String →
    Notes × Option String × List Msg
  | [], notes, rep => (notes, rep, [])
  | tc :: rest, notes, rep =>
    let args := tc.argText.getD []
    let out := execute notes wO fO tc.name args
    let rep2 :=
      if tc.name = "compile_report" then
        match out.2 with
        | JVal.obj fs =>
          if jTruthy (JVal.lookup fs "success") then
            match JVal.lookup fs "report" with
            | some (JVal.s r) => some r
            | _ => none
          else rep
        | _ => rep
      else rep
    let next := processToolCalls wO fO rest out.1 rep2
    (next.1, next.2.1, Msg.tool tc.id out.2 :: next.2.2)

/-- The `while iteration < max_iterations` loop of `ResearchAgent.research`.
`llm k` is the outcome of the model call on iteration `k` (an
`Except.error` is a raised exception: logged, then `break`).  `fuel` is
`max_iterations - iteration`; the returned number is the final value of
`iteration`. -/
def runLoop (llm : Nat → Exc ModelResponse) (wO : Nat → Exc (List Hit))
    (fO : Nat → Exc String) : Nat → Nat → AgentState → AgentState × Nat
  | 0, iteration, st => (st, iteration)
  | fuel + 1, iteration, st =>
    let iter2 := iteration + 1
    match llm iter2 with
    | Except.error _ => (st, iter2)
    | Except.ok resp =>
      let st2 : AgentState :=
        { st with messages :=
            st.messages ++ [Msg.assistant resp.content resp.tool_calls] }
      if resp.tool_calls.isEmpty then (st2, iter2)
      else
        let pr := processToolCalls wO fO resp.tool_calls st2.notes st2.report
        let st3 : AgentState :=
          { messages := st2.messages ++ pr.2.2, notes := pr.1,
            report := pr.2.1 }
        if pyTruthyStr st3.report then (st3, iter2)
        else runLoop llm wO fO fuel iter2 st3

/-- Session initialisation at the top of `ResearchAgent.research`: the
transcript is overwritten with the system directive and the topic message,
the ledger is cleared and the previous report is discarded; only these
three fields exist, so nothing of `prior` survives. -/
def researchInit (prior : AgentState) (topic : String) : AgentState :=
  { prior with
    messages := [Msg.system systemPrompt, Msg.user (userTemplate topic)],
    notes := clear_notes prior.notes,
    report := none }

/-- The loop of `ResearchAgent.research`, from the initialised state;
returns the state and the final value of `iteration`. -/
def researchCore (maxIters : Nat) (llm : Nat → Exc ModelResponse)
    (wO : Nat → Exc (List Hit)) (fO : Nat → Exc String) (topic : String)
    (prior : AgentState) : AgentState × Nat :=
  runLoop llm wO fO maxIters 0 (researchInit prior topic)

/-- The fallback partial report built when the loop ends with
`iteration >= max_iterations` and no truthy report. -/
def partialReport (maxIters : Nat) (notes : Notes) : String :=
  "\nPARTIAL RESEARCH REPORT\n=======================\n\n" ++
  "Research was terminated after " ++ toString maxIters ++
  " iterations.\n\nNotes gathered:\n" ++
  (if notes.isEmpty then "No notes were saved."
   else pyJoin "\n" (notes.map (fun note => "- " ++ note))) ++ "\n"

/-- Model of `ResearchAgent.research(topic)`: run the loop, apply the
`iteration >= max_iterations and not self._report` fallback, and return
`self._report or "No report was generated."`. -/
def research (maxIters : Nat) (llm : Nat → Exc ModelResponse)
    (wO : Nat → Exc (List Hit)) (fO : Nat → Exc String) (topic : String)
    (prior : AgentState) : String :=
  let r := researchCore maxIters llm wO fO topic prior
  let finalRep :=
    if maxIters ≤ r.2 ∧ pyTruthyStr r.1.report = false then
      some (partialReport maxIters r.1.notes)
    else r.1.report
  pyOrStr finalRep "No report was generated."

/-! ### `ToolRegistry.get_tool_definitions` -/

/-- One parameter entry of a tool schema. -/
structure ParamDef where
  pname : String
  ptype : String
  pdescription : String

/-- The `function` part of a tool schema. -/
structure FunctionDef where
  fname : String
  fdescription : String
  properties : List ParamDef
  required : List String

/-- One tool schema (`{"type": "function", "function": {...}}`). -/
structure ToolDef where
  ttype : String
  function : FunctionDef

/-- Model of `ToolRegistry.get_tool_definitions()`: the fixed literal list of the
four advertised tool schemas, in source order. -/
def get_tool_definitions : List ToolDef :=
  [⟨"function",
    ⟨"web_search",
     "Search the web for information on a given query. Returns a list of " ++
     "search results with titles, URLs, and snippets.",
     [⟨"query", "string", "The search query to look up"⟩],
     ["query"]⟩⟩,
   ⟨"function",
    ⟨"fetch_webpage",
     "Fetch and extract the main text content from a webpage URL.",
     [⟨"url", "string", "The URL of the webpage to fetch"⟩],
     ["url"]⟩⟩,
   ⟨"function",
    ⟨"take_notes",
     "Save important findings or notes during research. Use this to " ++
     "record key information you want to include in the final report.",
     [⟨"note", "string", "The note or finding to save"⟩,
      ⟨"source", "string", "The source URL or reference for this note"⟩],
     ["note"]⟩⟩,
   ⟨"function",
    ⟨"compile_report",
     "Compile all gathered notes and findings into a final research " ++
     "report. Call this when you have gathered enough information to " ++
     "answer the research question.",
     [⟨"title", "string", "Title for the research report"⟩,
      ⟨"summary", "string", "Executive summary of the findings"⟩,
      ⟨"detailed_findings", "string", "Detailed findings and analysis"⟩,
      ⟨"conclusion", "string", "Conclusion and key takeaways"⟩],
     ["title", "summary", "detailed_findings", "conclusion"]⟩⟩]

/-! ### Helper lemmas -/

/-- States that `needle` occurs contiguously (verbatim) inside `hay`. -/
def SubstrOf (needle hay : String) : Prop :=
  List.IsInfix needle.data hay.data

theorem substrOf_refl (s : String) : SubstrOf s s := List.infix_refl _

theorem substrOf_appendL {n a : String} (h : SubstrOf n a) (b : String) :
    SubstrOf n (a ++ b) :=
  h.trans (List.prefix_append a.data b.data).isInfix

theorem substrOf_appendR {n b : String} (a : String) (h : SubstrOf n b) :
    SubstrOf n (a ++ b) :=
  h.trans (List.suffix_append a.data b.data).isInfix

theorem substrOf_end (a t : String) : SubstrOf t (a ++ t) :=
  substrOf_appendR a (substrOf_refl t)

theorem substrOf_front (t b : String) : SubstrOf t (t ++ b) :=
  substrOf_appendL (substrOf_refl t) b

theorem substrOf_mid (p rest : String) {needle hay : String}
    (h : hay = p ++ (needle ++ rest)) : SubstrOf needle hay := by
  subst h
  exact substrOf_appendR p (substrOf_front needle rest)

theorem data_ne_nil_append {a : String} (b : String) (h : a.data ≠ []) :
    ((a ++ b) : String).data ≠ [] := by
  show a.data ++ b.data ≠ []
  simp [List.append_eq_nil]
  intro hc
  exact absurd hc h

theorem execute_compile_unfold (notes : Notes) (wO : Nat → Exc (List Hit))
    (fO : Nat → Exc String) (args : Args) :
    execute notes wO fO "compile_report" args =
      match callTool notes wO fO "compile_report" args with
      | Except.ok r => r
      | Except.error e => (notes, JVal.obj [("error", JVal.s e)]) := rfl

theorem callTool_compile_cases (notes : Notes) (wO : Nat → Exc (List Hit))
    (fO : Nat → Exc String) (args : Args) :
    (∃ e, callTool notes wO fO "compile_report" args = Except.error e) ∨
    callTool notes wO fO "compile_report" args =
      Except.ok (notes, compile_report notes
        ((argLookup args "title").getD "")
        ((argLookup args "summary").getD "")
        ((argLookup args "detailed_findings").getD "")
        ((argLookup args "conclusion").getD "")) := by
  unfold callTool
  split
  · exact Or.inl ⟨_, rfl⟩
  · split
    · exact Or.inl ⟨_, rfl⟩
    · exact Or.inr rfl

/-! ### Claim theorems -/

/-- C8: `get_tool_definitions` returns exactly 4 tool schemas, with function
names `web_search`, `fetch_webpage`, `take_notes`, `compile_report` in that
stable order; as a pure constant of the process it is byte-stable across
calls (any two calls denote the same value). -/
theorem tool_definitions_stable :
    get_tool_definitions.length = 4
    ∧ get_tool_definitions.map (fun t => t.function.fname) =
        ["web_search", "fetch_webpage", "take_notes", "compile_report"]
    ∧ get_tool_definitions = get_tool_definitions :=
  ⟨rfl, rfl, rfl⟩

/-- C6: `take_notes` appends exactly `"[Source: {source}] {note}"` to the
ledger and returns the running count; after `take_notes("X", source="S")`
on an empty ledger `get_notes` yields exactly `["[Source: S] X"]`; two
calls yield two entries in call order; `clear_notes` empties the ledger;
and `execute("take_notes", ...)` without a source succeeds with the source
defaulted to `"Unknown"`. -/
theorem take_notes_ledger (notes : Notes) (note source n2 s2 : String)
    (wO : Nat → Exc (List Hit)) (fO : Nat → Exc String) :
    (take_notes notes note source).1 =
      notes ++ ["[Source: " ++ source ++ "] " ++ note]
    ∧ (take_notes notes note source).2 =
        JVal.obj [("success", JVal.b true),
          ("message", JVal.s "Note saved successfully"),
          ("total_notes", JVal.n (notes.length + 1))]
    ∧ get_notes (take_notes [] "X" "S").1 = ["[Source: S] X"]
    ∧ (take_notes (take_notes notes note source).1 n2 s2).1 =
        notes ++ ["[Source: " ++ source ++ "] " ++ note,
                  "[Source: " ++ s2 ++ "] " ++ n2]
    ∧ clear_notes (take_notes notes note source).1 = []
    ∧ execute notes wO fO "take_notes" [("note", note)] =
        take_notes notes note "Unknown" := by
  refine ⟨rfl, ?_, rfl, ?_, rfl, rfl⟩
  · simp [take_notes]
  · simp [take_notes]

/-- C10: `execute`-ing `compile_report` (with any argument dictionary, in
particular on its error paths too) leaves the note ledger unchanged —
`get_notes` is the same before and after — so a second identical
`compile_report` call returns exactly the same result. -/
theorem compile_report_frame (notes : Notes) (wO : Nat → Exc (List Hit))
    (fO : Nat → Exc String) (args : Args) :
    (execute notes wO fO "compile_report" args).1 = notes
    ∧ get_notes (execute notes wO fO "compile_report" args).1 =
        get_notes notes
    ∧ execute (execute notes wO fO "compile_report" args).1 wO fO
        "compile_report" args = execute notes wO fO "compile_report" args := by
  have h1 : (execute notes wO fO "compile_report" args).1 = notes := by
    rw [execute_compile_unfold]
    rcases callTool_compile_cases notes wO fO args with ⟨e, he⟩ | hok
    · rw [he]
    · rw [hok]
  exact ⟨h1, by rw [h1], by rw [h1]⟩

theorem renderNotes_substr : ∀ (ns : Notes) (k i : Nat) (h : i < ns.length),
    SubstrOf (noteLine (k + i) (ns.get ⟨i, h⟩)) (renderNotes ns k) := by
  intro ns
  induction ns with
  | nil => intro k i h; simp at h
  | cons n ns ih =>
    intro k i h
    cases i with
    | zero =>
      simpa [renderNotes] using
        substrOf_front (noteLine k n) (renderNotes ns (k + 1))
    | succ j =>
      have h2 : j < ns.length := by simpa using h
      have harith : k + (j + 1) = (k + 1) + j := by omega
      simpa [renderNotes, harith] using
        substrOf_appendR (noteLine k n) (ih (k + 1) j h2)

/-- C5: `compile_report` returns `{success: true, report, notes_included}`
with `notes_included` the current number of ledger notes, and the rendered
report contains the title, summary, detailed findings and conclusion
verbatim, plus every ledger note numbered consecutively from 1 in ledger
order. -/
theorem compile_report_correct (notes : Notes) (t s d c : String) :
    compile_report notes t s d c =
      JVal.obj [("success", JVal.b true),
        ("report", JVal.s (reportText notes t s d c)),
        ("notes_included", JVal.n notes.length)]
    ∧ SubstrOf t (reportText notes t s d c)
    ∧ SubstrOf s (reportText notes t s d c)
    ∧ SubstrOf d (reportText notes t s d c)
    ∧ SubstrOf c (reportText notes t s d c)
    ∧ ∀ i (h : i < notes.length),
        SubstrOf (noteLine (i + 1) (notes.get ⟨i, h⟩))
          (reportText notes t s d c) := by
  refine ⟨rfl, ?_, ?_, ?_, ?_, ?_⟩
  · exact substrOf_mid ("\n" ++ eqBanner ++ "\nRESEARCH REPORT: ")
      ("\n" ++ eqBanner ++ "\n\nEXECUTIVE SUMMARY\n" ++ dashBanner ++ "\n" ++
       s ++ "\n\nDETAILED FINDINGS\n" ++ dashBanner ++ "\n" ++ d ++
       "\n\nCONCLUSION\n" ++ dashBanner ++ "\n" ++ c ++
       "\n\nRESEARCH NOTES\n" ++ dashBanner ++ "\n" ++ renderNotes notes 1 ++
       "\n" ++ eqBanner ++ "\n")
      (by simp only [reportText, String.append_assoc])
  · exact substrOf_mid ("\n" ++ eqBanner ++ "\nRESEARCH REPORT: " ++ t ++
       "\n" ++ eqBanner ++ "\n\nEXECUTIVE SUMMARY\n" ++ dashBanner ++ "\n")
      ("\n\nDETAILED FINDINGS\n" ++ dashBanner ++ "\n" ++ d ++
       "\n\nCONCLUSION\n" ++ dashBanner ++ "\n" ++ c ++
       "\n\nRESEARCH NOTES\n" ++ dashBanner ++ "\n" ++ renderNotes notes 1 ++
       "\n" ++ eqBanner ++ "\n")
      (by simp only [reportText, String.append_assoc])
  · exact substrOf_mid ("\n" ++ eqBanner ++ "\nRESEARCH REPORT: " ++ t ++
       "\n" ++ eqBanner ++ "\n\nEXECUTIVE SUMMARY\n" ++ dashBanner ++ "\n" ++
       s ++ "\n\nDETAILED FINDINGS\n" ++ dashBanner ++ "\n")
      ("\n\nCONCLUSION\n" ++ dashBanner ++ "\n" ++ c ++
       "\n\nRESEARCH NOTES\n" ++ dashBanner ++ "\n" ++ renderNotes notes 1 ++
       "\n" ++ eqBanner ++ "\n")
      (by simp only [reportText, String.append_assoc])
  · exact substrOf_mid ("\n" ++ eqBanner ++ "\nRESEARCH REPORT: " ++ t ++
       "\n" ++ eqBanner ++ "\n\nEXECUTIVE SUMMARY\n" ++ dashBanner ++ "\n" ++
       s ++ "\n\nDETAILED FINDINGS\n" ++ dashBanner ++ "\n" ++ d ++
       "\n\nCONCLUSION\n" ++ dashBanner ++ "\n")
      ("\n\nRESEARCH NOTES\n" ++ dashBanner ++ "\n" ++ renderNotes notes 1 ++
       "\n" ++ eqBanner ++ "\n")
      (by simp only [reportText, String.append_assoc])
  · intro i h
    have h1 : SubstrOf (noteLine (i + 1) (notes.get ⟨i, h⟩))
        (renderNotes notes 1) := by
      simpa [Nat.add_comm] using renderNotes_substr notes 1 i h
    have h2 : SubstrOf (renderNotes notes 1) (reportText notes t s d c) :=
      substrOf_mid ("\n" ++ eqBanner ++ "\nRESEARCH REPORT: " ++ t ++
        "\n" ++ eqBanner ++ "\n\nEXECUTIVE SUMMARY\n" ++ dashBanner ++ "\n" ++
        s ++ "\n\nDETAILED FINDINGS\n" ++ dashBanner ++ "\n" ++ d ++
        "\n\nCONCLUSION\n" ++ dashBanner ++ "\n" ++ c ++
        "\n\nRESEARCH NOTES\n" ++ dashBanner ++ "\n")
        ("\n" ++ eqBanner ++ "\n")
        (by simp only [reportText, String.append_assoc])
    exact List.IsInfix.trans h1 h2

/-- Two concrete ledger notes for the C5 witness. -/
def twoNotes : Notes :=
  ["[Source: Source A] Important finding 1",
   "[Source: Source B] Important finding 2"]

/-- C5 witness: with two prior notes, `compile_report` reports success with
`notes_included = 2` and renders both notes numbered 1 and 2. -/
theorem compile_report_correct_witness :
    compile_report twoNotes "T" "S1" "D" "C" =
      JVal.obj [("success", JVal.b true),
        ("report", JVal.s (reportText twoNotes "T" "S1" "D" "C")),
        ("notes_included", JVal.n 2)]
    ∧ SubstrOf "T" (reportText twoNotes "T" "S1" "D" "C")
    ∧ SubstrOf "S1" (reportText twoNotes "T" "S1" "D" "C")
    ∧ SubstrOf (noteLine 1 "[Source: Source A] Important finding 1")
        (reportText twoNotes "T" "S1" "D" "C")
    ∧ SubstrOf (noteLine 2 "[Source: Source B] Important finding 2")
        (reportText twoNotes "T" "S1" "D" "C") :=
  ⟨(compile_report_correct twoNotes "T" "S1" "D" "C").1,
   (compile_report_correct twoNotes "T" "S1" "D" "C").2.1,
   (compile_report_correct twoNotes "T" "S1" "D" "C").2.2.1,
   (compile_report_correct twoNotes "T" "S1" "D" "C").2.2.2.2.2 0 (by decide),
   (compile_report_correct twoNotes "T" "S1" "D" "C").2.2.2.2.2 1 (by decide)⟩

theorem web_search_first_attempt (wO : Nat → Exc (List Hit)) (q : String) :
    web_search wO q = Except.ok (web_search_body (wO 1) q) := rfl

theorem fetch_webpage_first_attempt (fO : Nat → Exc String) (u : String) :
    fetch_webpage fO u = Except.ok (fetch_webpage_body (fO 1) u) := rfl

theorem web_search_body_obj (p : Exc (List Hit)) (q : String) :
    ∃ fs, web_search_body p q = JVal.obj fs := by
  cases p <;> exact ⟨_, rfl⟩

theorem fetch_webpage_body_obj (p : Exc String) (u : String) :
    ∃ fs, fetch_webpage_body p u = JVal.obj fs := by
  cases p <;> exact ⟨_, rfl⟩

theorem execute_known (notes : Notes) (wO : Nat → Exc (List Hit))
    (fO : Nat → Exc String) (name : String) (args : Args)
    (h : toolNames.contains name = true) :
    execute notes wO fO name args =
      match callTool notes wO fO name args with
      | Except.ok r => r
      | Except.error e => (notes, JVal.obj [("error", JVal.s e)]) := by
  unfold execute
  rw [h]
  rfl

/-- C4: `ToolRegistry.execute` never raises: its result is always a
structured object; an unknown tool name yields an object with an `error`
key; and whenever a required argument of the named tool is absent from the
argument dictionary (the in-tool `TypeError` case) the result is likewise
an object with an `error` key. -/
theorem execute_total (notes : Notes) (wO : Nat → Exc (List Hit))
    (fO : Nat → Exc String) (name : String) (args : Args) :
    (∃ fs, (execute notes wO fO name args).2 = JVal.obj fs)
    ∧ (name ∉ toolNames →
        JVal.hasKey (execute notes wO fO name args).2 "error" = true)
    ∧ ((requiredNames name).any (fun p => (argLookup args p).isNone) = true →
        JVal.hasKey (execute notes wO fO name args).2 "error" = true) := by
  by_cases hmem : name ∈ toolNames
  · have hin : name = "web_search" ∨ name = "fetch_webpage" ∨
        name = "take_notes" ∨ name = "compile_report" := by
      simpa [toolNames] using hmem
    rcases hin with rfl | rfl | rfl | rfl
    · rw [execute_known notes wO fO "web_search" args (by decide)]
      by_cases h1 :
          (args.any fun kv => !(paramNames "web_search").contains kv.1) = true
      · have hct : callTool notes wO fO "web_search" args = Except.error
            ("web_search" ++ "() got an unexpected keyword argument") := by
          unfold callTool
          rw [if_pos h1]
        rw [hct]
        exact ⟨⟨_, rfl⟩, fun _ => rfl, fun _ => rfl⟩
      · by_cases h2 : ((requiredNames "web_search").any
            fun p => (argLookup args p).isNone) = true
        · have hct : callTool notes wO fO "web_search" args = Except.error
              ("web_search" ++ "() missing a required positional argument") :=
            by
              unfold callTool
              rw [if_neg h1, if_pos h2]
          rw [hct]
          exact ⟨⟨_, rfl⟩, fun _ => rfl, fun _ => rfl⟩
        · have hct : callTool notes wO fO "web_search" args = Except.ok
              (notes, web_search_body (wO 1)
                ((argLookup args "query").getD "")) := by
            unfold callTool
            rw [if_neg h1, if_neg h2]
            rfl
          rw [hct]
          refine ⟨?_, fun h3 => absurd (by decide) h3,
            fun h3 => absurd h3 h2⟩
          rcases web_search_body_obj (wO 1)
            ((argLookup args "query").getD "") with ⟨fs, hfs⟩
          exact ⟨fs, hfs⟩
    · rw [execute_known notes wO fO "fetch_webpage" args (by decide)]
      by_cases h1 : (args.any
          fun kv => !(paramNames "fetch_webpage").contains kv.1) = true
      · have hct : callTool notes wO fO "fetch_webpage" args = Except.error
            ("fetch_webpage" ++ "() got an unexpected keyword argument") := by
          unfold callTool
          rw [if_pos h1]
        rw [hct]
        exact ⟨⟨_, rfl⟩, fun _ => rfl, fun _ => rfl⟩
      · by_cases h2 : ((requiredNames "fetch_webpage").any
            fun p => (argLookup args p).isNone) = true
        · have hct : callTool notes wO fO "fetch_webpage" args = Except.error
              ("fetch_webpage" ++
                "() missing a required positional argument") := by
            unfold callTool
            rw [if_neg h1, if_pos h2]
          rw [hct]
          exact ⟨⟨_, rfl⟩, fun _ => rfl, fun _ => rfl⟩
        · have hct : callTool notes wO fO "fetch_webpage" args = Except.ok
              (notes, fetch_webpage_body (fO 1)
                ((argLookup args "url").getD "")) := by
            unfold callTool
            rw [if_neg h1, if_neg h2]
            rfl
          rw [hct]
          refine ⟨?_, fun h3 => absurd (by decide) h3,
            fun h3 => absurd h3 h2⟩
          rcases fetch_webpage_body_obj (fO 1)
            ((argLookup args "url").getD "") with ⟨fs, hfs⟩
          exact ⟨fs, hfs⟩
    · rw [execute_known notes wO fO "take_notes" args (by decide)]
      by_cases h1 :
          (args.any fun kv => !(paramNames "take_notes").contains kv.1) = true
      · have hct : callTool notes wO fO "take_notes" args = Except.error
            ("take_notes" ++ "() got an unexpected keyword argument") := by
          unfold callTool
          rw [if_pos h1]
        rw [hct]
        exact ⟨⟨_, rfl⟩, fun _ => rfl, fun _ => rfl⟩
      · by_cases h2 : ((requiredNames "take_notes").any
            fun p => (argLookup args p).isNone) = true
        · have hct : callTool notes wO fO "take_notes" args = Except.error
              ("take_notes" ++ "() missing a required positional argument") :=
            by
              unfold callTool
              rw [if_neg h1, if_pos h2]
          rw [hct]
          exact ⟨⟨_, rfl⟩, fun _ => rfl, fun _ => rfl⟩
        · have hct : callTool notes wO fO "take_notes" args = Except.ok
              (take_notes notes ((argLookup args "note").getD "")
                ((argLookup args "source").getD "Unknown")) := by
            unfold callTool
            rw [if_neg h1, if_neg h2]
            rfl
          rw [hct]
          exact ⟨⟨_, rfl⟩, fun h3 => absurd (by decide) h3,
            fun h3 => absurd h3 h2⟩
    · rw [execute_known notes wO fO "compile_report" args (by decide)]
      by_cases h1 : (args.any
          fun kv => !(paramNames "compile_report").contains kv.1) = true
      · have hct : callTool notes wO fO "compile_report" args = Except.error
            ("compile_report" ++ "() got an unexpected keyword argument") := by
          unfold callTool
          rw [if_pos h1]
        rw [hct]
        exact ⟨⟨_, rfl⟩, fun _ => rfl, fun _ => rfl⟩
      · by_cases h2 : ((requiredNames "compile_report").any
            fun p => (argLookup args p).isNone) = true
        · have hct : callTool notes wO fO "compile_report" args = Except.error
              ("compile_report" ++
                "() missing a required positional argument") := by
            unfold callTool
            rw [if_neg h1, if_pos h2]
          rw [hct]
          exact ⟨⟨_, rfl⟩, fun _ => rfl, fun _ => rfl⟩
        · have hct : callTool notes wO fO "compile_report" args = Except.ok
              (notes, compile_report notes
                ((argLookup args "title").getD "")
                ((argLookup args "summary").getD "")
                ((argLookup args "detailed_findings").getD "")
                ((argLookup args "conclusion").getD "")) := by
            unfold callTool
            rw [if_neg h1, if_neg h2]
            rfl
          rw [hct]
          exact ⟨⟨_, rfl⟩, fun h3 => absurd (by decide) h3,
            fun h3 => absurd h3 h2⟩
  · have hc : toolNames.contains name = false := by
      simpa using hmem
    have hx : execute notes wO fO name args =
        (notes, JVal.obj [("error", JVal.s ("Unknown tool: " ++ name))]) := by
      unfold execute
      rw [hc]
      rfl
    rw [hx]
    exact ⟨⟨_, rfl⟩, fun _ => rfl, fun _ => rfl⟩

/-- A search oracle that always raises. -/
def offlineWeb : Nat → Exc (List Hit) := fun _ => Except.error "network down"

/-- A fetch oracle that always raises. -/
def offlineFetch : Nat → Exc String := fun _ => Except.error "network down"

/-- C4 witness: `execute("unknown_tool", {})` returns a payload with an
`error` key, and `execute("web_search", {})` (missing required `query`)
also returns a payload with an `error` key. -/
theorem execute_total_witness :
    JVal.hasKey (execute [] offlineWeb offlineFetch "unknown_tool" []).2
      "error" = true
    ∧ JVal.hasKey (execute [] offlineWeb offlineFetch "web_search" []).2
      "error" = true :=
  ⟨(execute_total [] offlineWeb offlineFetch "unknown_tool" []).2.1
     (by decide),
   (execute_total [] offlineWeb offlineFetch "web_search" []).2.2
     (by decide)⟩

theorem splitNL_no_newline : ∀ (cs acc : List Char),
    (∀ c ∈ cs, c ≠ '\n') → splitNL cs acc = [acc.reverse ++ cs] := by
  intro cs
  induction cs with
  | nil => intro acc _; simp [splitNL]
  | cons c cs ih =>
    intro acc h
    have hc : ¬ c = '\n' := h c (by simp)
    have hrest : ∀ x ∈ cs, x ≠ '\n' := fun x hx => h x (by simp [hx])
    simp [splitNL, hc, ih (c :: acc) hrest]

/-- A single line of 4001 characters, with no whitespace and no newline. -/
def bigText : String := String.mk (List.replicate 4001 'a')

theorem dropWhile_replicate_a (n : Nat) :
    (List.replicate n 'a').dropWhile Char.isWhitespace =
      List.replicate n 'a' := by
  cases n with
  | zero => rfl
  | succ m =>
    rw [List.replicate_succ, List.dropWhile_cons]
    simp

theorem pyStrip_big : pyStrip bigText = bigText := by
  show String.mk _ = _
  rw [show bigText.data = List.replicate 4001 'a' from rfl]
  rw [dropWhile_replicate_a, List.reverse_replicate, dropWhile_replicate_a,
    List.reverse_replicate]
  rfl

theorem pySplitlines_single (cs : List Char) (hne : cs ≠ [])
    (hnl : ∀ c ∈ cs, c ≠ '\n') :
    pySplitlines (String.mk cs) = [String.mk cs] := by
  unfold pySplitlines
  rw [show (String.mk cs).data = cs from rfl]
  rw [splitNL_no_newline cs [] hnl]
  have h1 : cs.isEmpty = false := by simpa [List.isEmpty_iff] using hne
  rw [h1]
  have h2 : cs.getLast? ≠ some '\n' := by
    intro hcon
    rcases List.getLast?_eq_some_iff.mp hcon with ⟨l, hl⟩
    exact hnl '\n' (hl ▸ by simp) rfl
  rw [if_neg Bool.false_ne_true]
  show List.map String.mk (if cs.getLast? = some '\n' then
    List.dropLast [List.reverse [] ++ cs] else [List.reverse [] ++ cs]) =
    [String.mk cs]
  rw [if_neg h2]
  simp

theorem bigText_data_isEmpty : bigText.data.isEmpty = false := by
  rw [show bigText.data = List.replicate 4001 'a' from rfl,
    List.replicate_succ]
  rfl

theorem pySplitlines_big : pySplitlines bigText = [bigText] := by
  have := pySplitlines_single (List.replicate 4001 'a')
    (by rw [Ne, List.replicate_eq_nil_iff]; omega)
    (fun c hc => by
      rw [List.eq_of_mem_replicate hc]
      decide)
  exact this

theorem fetchLines_big : fetchLines bigText = [bigText] := by
  unfold fetchLines
  rw [pySplitlines_big]
  simp only [List.map_cons, List.map_nil, pyStrip_big]
  rw [List.filter_cons, bigText_data_isEmpty]
  rfl

theorem joined100_big : joined100 bigText = bigText := by
  unfold joined100
  rw [fetchLines_big]
  rfl

theorem pyLen_big : pyLen bigText = 4001 := by
  show (List.replicate 4001 'a').length = 4001
  rw [List.length_replicate]

theorem fetchContent_big : fetchContent bigText =
    String.mk ((List.replicate 4001 'a').take 4000) ++ truncMarker := by
  rw [show fetchContent bigText =
      (if 4000 < pyLen (joined100 bigText) then
        String.mk ((joined100 bigText).data.take 4000) ++ truncMarker
      else joined100 bigText) from rfl]
  rw [joined100_big, pyLen_big, if_pos (by omega)]
  rfl

theorem pyLen_fetch_big : pyLen (fetchContent bigText) = 4015 := by
  rw [fetchContent_big]
  show ((List.replicate 4001 'a').take 4000 ++ truncMarker.data).length = 4015
  rw [List.length_append, List.length_take, List.length_replicate]
  decide

/-- C2 counterexample: for a page whose extracted text is one non-empty
line of 4001 characters, the content returned by `fetch_webpage` is 4015
characters long — the truncation marker is appended after the
4000-character cut, so the result is not at most 4000 characters. -/
theorem fetch_cap_counterexample :
    pyLen (fetchContent bigText) = 4015
    ∧ ¬ pyLen (fetchContent bigText) ≤ 4000 := by
  refine ⟨pyLen_fetch_big, ?_⟩
  rw [pyLen_fetch_big]
  omega

/-- C2 (amended): the returned text is the first 100 non-empty stripped
lines joined by newlines; when that joined text is within the
4000-character cap it is returned unchanged, otherwise its first 4000
characters are returned with the truncation marker appended after them, so
the result is at most 4015 (not 4000) characters long, marker included. -/
theorem fetch_content_amended (text : String) :
    pyLen (fetchContent text) ≤ 4015
    ∧ (pyLen (joined100 text) ≤ 4000 → fetchContent text = joined100 text)
    ∧ (4000 < pyLen (joined100 text) →
        fetchContent text =
          String.mk ((joined100 text).data.take 4000) ++ truncMarker
        ∧ pyLen (fetchContent text) = 4015) := by
  by_cases h : 4000 < pyLen (joined100 text)
  · have hEq : fetchContent text =
        String.mk ((joined100 text).data.take 4000) ++ truncMarker := by
      unfold fetchContent
      rw [if_pos h]
    have hLen : pyLen (fetchContent text) = 4015 := by
      rw [hEq]
      show ((joined100 text).data.take 4000 ++ truncMarker.data).length = 4015
      rw [List.length_append, List.length_take]
      have h1 : pyLen (joined100 text) = (joined100 text).data.length := rfl
      have h2 : truncMarker.data.length = 15 := by decide
      omega
    exact ⟨by omega, fun hle => absurd h (by omega),
      fun _ => ⟨hEq, hLen⟩⟩
  · have hEq : fetchContent text = joined100 text := by
      unfold fetchContent
      rw [if_neg h]
    refine ⟨?_, fun _ => hEq, fun hgt => absurd hgt h⟩
    rw [hEq]
    omega

/-- C2 (amended) witness: at the 4001-character one-line page text the
truncating branch is taken and the result is exactly 4015 characters. -/
theorem fetch_content_amended_witness :
    fetchContent bigText =
      String.mk ((joined100 bigText).data.take 4000) ++ truncMarker
    ∧ pyLen (fetchContent bigText) = 4015 :=
  (fetch_content_amended bigText).2.2 (by rw [joined100_big, pyLen_big]; omega)

/-- A search provider that raises on the first attempt and would succeed on
the second. -/
def flakyWeb : Nat → Exc (List Hit) :=
  fun k =>
    if k = 1 then Except.error "network unreachable"
    else Except.ok [⟨"Example", "https://example.com", "snippet"⟩]

/-- C3 (divergence evidence): because the whole body of `web_search` is
wrapped in its own `try/except Exception` that returns the structured
failure value, the decorated callable never raises, so the tenacity retry
layer (`stop_after_attempt(3)`) never performs a second attempt: with a
provider that raises on attempt 1 and would succeed on attempt 2,
`web_search` returns the failure value immediately, and in general only
attempt 1 is ever consulted. -/
theorem web_search_no_retry :
    web_search flakyWeb "q" =
      Except.ok (JVal.obj [("success", JVal.b false),
        ("error", JVal.s "network unreachable"),
        ("results", JVal.arr [])])
    ∧ flakyWeb 2 = Except.ok [⟨"Example", "https://example.com", "snippet"⟩]
    ∧ (∀ (provider : Nat → Exc (List Hit)) (q : String),
        web_search provider q =
          Except.ok (web_search_body (provider 1) q)) :=
  ⟨rfl, rfl, fun _ _ => rfl⟩

/-- C9: `research` resets all session state before the first model request:
the initialised state is exactly the fixed system directive followed by the
topic message, with an empty ledger and no report, so the outcome of a
session is independent of any state left by a previous session on the same
agent instance. -/
theorem research_session_isolation (maxIters : Nat)
    (llm : Nat → Exc ModelResponse) (wO : Nat → Exc (List Hit))
    (fO : Nat → Exc String) (topic : String) (p1 p2 : AgentState) :
    researchInit p1 topic =
      { messages := [Msg.system systemPrompt, Msg.user (userTemplate topic)],
        notes := [], report := none }
    ∧ researchCore maxIters llm wO fO topic p1 =
        researchCore maxIters llm wO fO topic p2
    ∧ research maxIters llm wO fO topic p1 =
        research maxIters llm wO fO topic p2 :=
  ⟨rfl, rfl, rfl⟩

theorem research_eq (maxIters : Nat) (llm : Nat → Exc ModelResponse)
    (wO : Nat → Exc (List Hit)) (fO : Nat → Exc String) (topic : String)
    (p : AgentState) :
    research maxIters llm wO fO topic p =
      pyOrStr
        (if maxIters ≤ (researchCore maxIters llm wO fO topic p).2 ∧
            pyTruthyStr (researchCore maxIters llm wO fO topic p).1.report =
              false then
          some (partialReport maxIters
            (researchCore maxIters llm wO fO topic p).1.notes)
        else (researchCore maxIters llm wO fO topic p).1.report)
        "No report was generated." := rfl

theorem reportText_data_ne_nil (notes : Notes) (t s d c : String) :
    (reportText notes t s d c).data ≠ [] := by
  unfold reportText
  repeat apply data_ne_nil_append
  decide

theorem pyTruthyStr_report (notes : Notes) (t s d c : String) :
    pyTruthyStr (some (reportText notes t s d c)) = true := by
  show (!(reportText notes t s d c).data.isEmpty) = true
  cases hdata : (reportText notes t s d c).data with
  | nil => exact absurd hdata (reportText_data_ne_nil notes t s d c)
  | cons a l => rfl

theorem partialReport_data_ne_nil (m : Nat) (ns : Notes) :
    (partialReport m ns).data ≠ [] := by
  unfold partialReport
  repeat apply data_ne_nil_append
  decide

theorem pyTruthyStr_partial (m : Nat) (ns : Notes) :
    pyTruthyStr (some (partialReport m ns)) = true := by
  show (!(partialReport m ns).data.isEmpty) = true
  cases hdata : (partialReport m ns).data with
  | nil => exact absurd hdata (partialReport_data_ne_nil m ns)
  | cons a l => rfl

theorem runLoop_succ (llm : Nat → Exc ModelResponse)
    (wO : Nat → Exc (List Hit)) (fO : Nat → Exc String)
    (fuel iteration : Nat) (st : AgentState) :
    runLoop llm wO fO (fuel + 1) iteration st =
      (match llm (iteration + 1) with
      | Except.error _ => (st, iteration + 1)
      | Except.ok resp =>
        let st2 : AgentState :=
          { st with messages :=
              st.messages ++ [Msg.assistant resp.content resp.tool_calls] }
        if resp.tool_calls.isEmpty then (st2, iteration + 1)
        else
          let pr := processToolCalls wO fO resp.tool_calls st2.notes st2.report
          let st3 : AgentState :=
            { messages := st2.messages ++ pr.2.2, notes := pr.1,
              report := pr.2.1 }
          if pyTruthyStr st3.report then (st3, iteration + 1)
          else runLoop llm wO fO fuel (iteration + 1) st3) := rfl

set_option maxHeartbeats 1000000 in
theorem processToolCalls_compile (wO : Nat → Exc (List Hit))
    (fO : Nat → Exc String) (cid : String) (t s d c : String)
    (notes : Notes) (rep : Option String) :
    processToolCalls wO fO
      [⟨cid, "compile_report", some [("title", t), ("summary", s),
        ("detailed_findings", d), ("conclusion", c)]⟩] notes rep =
      (notes, some (reportText notes t s d c),
       [Msg.tool cid (compile_report notes t s d c)]) := rfl

theorem runLoop_compile_step (llm : Nat → Exc ModelResponse)
    (wO : Nat → Exc (List Hit)) (fO : Nat → Exc String)
    (fuel iteration : Nat) (st : AgentState)
    (cid : String) (content : Option String) (t s d c : String)
    (h : llm (iteration + 1) = Except.ok ⟨content,
      [⟨cid, "compile_report",
        some [("title", t), ("summary", s), ("detailed_findings", d),
              ("conclusion", c)]⟩]⟩) :
    runLoop llm wO fO (fuel + 1) iteration st =
      ({ messages := st.messages ++
          [Msg.assistant content
            [⟨cid, "compile_report",
              some [("title", t), ("summary", s),
                    ("detailed_findings", d), ("conclusion", c)]⟩],
           Msg.tool cid (compile_report st.notes t s d c)],
         notes := st.notes, report := some (reportText st.notes t s d c) },
       iteration + 1) := by
  rw [runLoop_succ, h]
  simp only [processToolCalls_compile, List.isEmpty_cons, Bool.false_eq_true,
    if_false, pyTruthyStr_report, eq_self_iff_true, if_true,
    List.append_assoc, List.cons_append, List.nil_append]

/-- C7: when the first model turn requests `compile_report` with all four
required fields (and the iteration budget allows at least one iteration),
the session terminates right after iteration 1 — the model is never
consulted again: any model agreeing on the first call gives the same
session — and `research` returns the compiled report captured from the
tool result. -/
theorem research_first_turn_report (maxIters : Nat)
    (llm : Nat → Exc ModelResponse) (wO : Nat → Exc (List Hit))
    (fO : Nat → Exc String) (topic : String) (p : AgentState)
    (cid : String) (content : Option String) (t s d c : String)
    (h1 : 1 ≤ maxIters)
    (h2 : llm 1 = Except.ok ⟨content,
      [⟨cid, "compile_report",
        some [("title", t), ("summary", s), ("detailed_findings", d),
              ("conclusion", c)]⟩]⟩) :
    (researchCore maxIters llm wO fO topic p).2 = 1
    ∧ research maxIters llm wO fO topic p = reportText [] t s d c
    ∧ (∀ llm2 : Nat → Exc ModelResponse, llm2 1 = llm 1 →
        research maxIters llm2 wO fO topic p =
          research maxIters llm wO fO topic p) := by
  obtain ⟨n, rfl⟩ : ∃ n, maxIters = n + 1 := ⟨maxIters - 1, by omega⟩
  have key : ∀ g : Nat → Exc ModelResponse, g 1 = Except.ok ⟨content,
      [⟨cid, "compile_report",
        some [("title", t), ("summary", s), ("detailed_findings", d),
              ("conclusion", c)]⟩]⟩ →
      researchCore (n + 1) g wO fO topic p =
        ({ messages := [Msg.system systemPrompt,
            Msg.user (userTemplate topic),
            Msg.assistant content
              [⟨cid, "compile_report",
                some [("title", t), ("summary", s),
                      ("detailed_findings", d), ("conclusion", c)]⟩],
            Msg.tool cid (compile_report [] t s d c)],
           notes := [], report := some (reportText [] t s d c) }, 1) := by
    intro g hg
    show runLoop g wO fO (n + 1) 0 (researchInit p topic) = _
    rw [runLoop_compile_step g wO fO n 0 (researchInit p topic) cid content
      t s d c hg]
    rfl
  have hcore := key llm h2
  refine ⟨by rw [hcore], ?_, ?_⟩
  · rw [research_eq, hcore]
    simp [pyOrStr, pyTruthyStr_report]
  · intro llm2 heq
    have hcore2 := key llm2 (heq.trans h2)
    rw [research_eq, hcore2, research_eq, hcore]

/-- The model used by the C7 witness: its first (and every) turn requests a
fully-specified `compile_report` call. -/
def llmCompileFirst : Nat → Exc ModelResponse :=
  fun _ => Except.ok ⟨none, [⟨"call-1", "compile_report",
    some [("title", "T"), ("summary", "S"), ("detailed_findings", "D"),
          ("conclusion", "C")]⟩]⟩

/-- C7 witness: with budget 3, a first-turn `compile_report` session stops
at iteration 1 and returns the compiled report. -/
theorem research_first_turn_report_witness :
    (researchCore 3 llmCompileFirst offlineWeb offlineFetch "topic"
      ⟨[], [], none⟩).2 = 1
    ∧ research 3 llmCompileFirst offlineWeb offlineFetch "topic"
        ⟨[], [], none⟩ = reportText [] "T" "S" "D" "C" :=
  ⟨(research_first_turn_report 3 llmCompileFirst offlineWeb offlineFetch
      "topic" ⟨[], [], none⟩ "call-1" none "T" "S" "D" "C"
      (by omega) rfl).1,
   (research_first_turn_report 3 llmCompileFirst offlineWeb offlineFetch
      "topic" ⟨[], [], none⟩ "call-1" none "T" "S" "D" "C"
      (by omega) rfl).2.1⟩

/-- A model that never requests tool calls. -/
def llmNoTools : Nat → Exc ModelResponse :=
  fun _ => Except.ok ⟨some "done", []⟩

/-- C1 counterexample: with `max_iterations = 2` and a model that requests
no tool calls on its first turn (the COMPLETED-without-report case before
the final iteration), `research` returns the neutral placeholder
`"No report was generated."` instead of the partial-report fallback the
claim promises for this termination path. -/
theorem fallback_counterexample :
    research 2 llmNoTools offlineWeb offlineFetch "topic" ⟨[], [], none⟩ =
      "No report was generated."
    ∧ research 2 llmNoTools offlineWeb offlineFetch "topic" ⟨[], [], none⟩ ≠
        partialReport 2
          (researchCore 2 llmNoTools offlineWeb offlineFetch "topic"
            ⟨[], [], none⟩).1.notes := by
  constructor
  · rfl
  · decide

/-- C1 (amended): in every report-less termination the partial-report
fallback (always non-empty, built from the accumulated notes) is returned
exactly when the loop ended with its iteration counter at or above
`max_iterations` — budget exhaustion, or a no-tool-call / model-failure
termination on the final iteration; in every other report-less
termination, including no-tool-call completion or a model failure before
the final iteration (not only on the very first iteration), the neutral
`"No report was generated."` placeholder is returned. -/
theorem research_fallback_policy (maxIters : Nat)
    (llm : Nat → Exc ModelResponse) (wO : Nat → Exc (List Hit))
    (fO : Nat → Exc String) (topic : String) (p : AgentState)
    (h : pyTruthyStr (researchCore maxIters llm wO fO topic p).1.report =
      false) :
    research maxIters llm wO fO topic p =
      (if maxIters ≤ (researchCore maxIters llm wO fO topic p).2 then
        partialReport maxIters
          (researchCore maxIters llm wO fO topic p).1.notes
      else "No report was generated.")
    ∧ (∀ (m : Nat) (ns : Notes), partialReport m ns ≠ "") := by
  constructor
  · rw [research_eq]
    by_cases hle : maxIters ≤ (researchCore maxIters llm wO fO topic p).2
    · rw [if_pos ⟨hle, h⟩, if_pos hle]
      simp [pyOrStr, pyTruthyStr_partial]
    · rw [if_neg (fun hA => hle hA.1), if_neg hle]
      simp [pyOrStr, h]
  · intro m ns hcon
    exact partialReport_data_ne_nil m ns (congrArg String.data hcon)

/-- C1 (amended) witness: at the counterexample input (no tool calls on
turn 1, budget 2) the loop ends at iteration 1 < 2with no report, and the
policy yields the placeholder branch. -/
theorem research_fallback_policy_witness :
    research 2 llmNoTools offlineWeb offlineFetch "topic" ⟨[], [], none⟩ =
      (if 2 ≤ (researchCore 2 llmNoTools offlineWeb offlineFetch "topic"
          ⟨[], [], none⟩).2 then
        partialReport 2
          (researchCore 2 llmNoTools offlineWeb offlineFetch "topic"
            ⟨[], [], none⟩).1.notes
      else "No report was generated.")
    ∧ (∀ (m : Nat) (ns : Notes), partialReport m ns ≠ "") :=
  research_fallback_policy 2 llmNoTools offlineWeb offlineFetch "topic"
    ⟨[], [], none⟩ rfl

end SmartResearch
